import Mathlib

/-!
Quside QRNG admin library: header vocabulary and example program.

A shallow embedding of `quside_QRNG_admin.h` (the enumerations and the command
string macros) and of the `main` of `QusideQRNGLibraryAdmin_ETH_Example.c`, with
the properties of the specification stated over them.
-/

namespace Quside

/-! ## C enumerations -/

/-- One enumerator of a C `enum` declaration: its identifier and its explicit
initialiser (`= k`) when the declaration gives one. -/
structure Enumerator where
  name : String
  init : Option Int
deriving DecidableEq, Repr

/-- The C rule for the value of enumeration constants: an enumerator with an
initialiser has that value, one without has the value of the preceding
enumerator plus one; `next` is the value an enumerator without initialiser
gets at this position. -/
def enumCodesFrom (next : Int) : List Enumerator → List (String × Int)
  | [] => []
  | e :: rest =>
    match e.init with
    | some k => (e.name, k) :: enumCodesFrom (k + 1) rest
    | none => (e.name, next) :: enumCodesFrom (next + 1) rest

/-- The enumeration constants of a declaration with their integer values; the
first enumerator without initialiser has value 0. -/
def enumCodes (decl : List Enumerator) : List (String × Int) :=
  enumCodesFrom 0 decl

/-- The identifiers a declaration defines, in declaration order. -/
def enumNames (decl : List Enumerator) : List String :=
  decl.map Enumerator.name

/-- The integer code of an enumeration constant (the implicit conversion of an
enumeration constant to `int`); `none` for an identifier the declaration does
not define. -/
def encodeEnum (decl : List Enumerator) (v : String) : Option Int :=
  ((enumCodes decl).find? (fun p => p.1 == v)).map Prod.snd

/-- The enumeration constant with a given integer code; `none` when the
declaration has no constant with that code. -/
def decodeEnum (decl : List Enumerator) (c : Int) : Option String :=
  ((enumCodes decl).find? (fun p => p.2 == c)).map Prod.fst

/-- The declaration `typedef enum { ... } alarmType;` of the header. -/
def alarmType : List Enumerator :=
  [ ⟨"LASER_STATUS", none⟩,
    ⟨"LASER_TEMP", none⟩,
    ⟨"OPTICAL_PW", none⟩,
    ⟨"BIAS_MON", none⟩,
    ⟨"TEMP", none⟩,
    ⟨"VCC", none⟩,
    ⟨"VCOMP", none⟩,
    ⟨"QFACTOR", none⟩,
    ⟨"SYSTEM_CALIBRATED", none⟩ ]

/-- The declaration `typedef enum { ... } monitorValue;` of the header. -/
def monitorValue : List Enumerator :=
  [ ⟨"OK", none⟩,
    ⟨"LOW_VALUE", some (-1)⟩,
    ⟨"HIGH_VALUE", some (-2)⟩,
    ⟨"OFF", some (-3)⟩,
    ⟨"OUT_OF_SECURE_RANGE", some (-4)⟩ ]

/-- The declaration `typedef enum { ... } calibrationStatus;` of the header. -/
def calibrationStatus : List Enumerator :=
  [ ⟨"DEFAULT", none⟩,
    ⟨"CALIBRATING", none⟩,
    ⟨"CALIB_SUCCED", none⟩,
    ⟨"CALIB_FAIL", none⟩,
    ⟨"I2C_ERROR", none⟩ ]

/-! ## Command string macros -/

/-- The command string macros of the header, `#define NAME "wire"`, from `ACK`
to `VCOMP_READ`, in the order of the header: the macro name and the string it
expands to. -/
def commandMacros : List (String × String) :=
  [ ("ACK", "ACK"),
    ("ASK_BABYLON", "ASKB"),
    ("BIAS_MONITOR_READ", "BMR"),
    ("CALIBRATION", "CLB"),
    ("CALIBRATION_FINISH", "CLF"),
    ("CALIBRATION_STATUS", "CLS"),
    ("CALIBRATION_VTC", "CLV"),
    ("CAPTURE_FINISH", "CPF"),
    ("CAPTURE_RECEIVED", "CPR"),
    ("CAPTURE", "CPT"),
    ("CAPTURE_RAW", "CRA"),
    ("CHECK_THRESHOLDS", "CTH"),
    ("DISCONNECT", "DIS"),
    ("DEVICE_ERROR", "DRR"),
    ("DELTA_T_READ", "DTR"),
    ("ECHO", "ECH"),
    ("END", "END"),
    ("ERROR", "ERR"),
    ("FIND_BOARD", "FBO"),
    ("FIND_DEVICE", "FDV"),
    ("GET_BOARDS_ID", "GBI"),
    ("INIT_DEVICE", "IDV"),
    ("LASER_STATUS_READ", "LAS"),
    ("LED", "LED"),
    ("LASER_TEMPERATURES_READ", "LTR"),
    ("MONITOR_ALARM", "MAL"),
    ("MINENTROPY", "MET"),
    ("MONITOR_ENABLE_WRITE", "MEW"),
    ("MONITOR_OUT_LIMITS", "MOL"),
    ("MONITOR_VALUE_READ", "MVR"),
    ("NEW_CONFIG_NETWORK", "NCN"),
    ("NUM_LASERS", "NML"),
    ("OPTICAL_POWER_READ", "OPR"),
    ("QFACTOR", "QFT"),
    ("RESET", "RST"),
    ("SERVER_VERSION", "SRV"),
    ("SYSTEM_INFO", "SYS"),
    ("TIMEOUT", "TOU"),
    ("TEMPERATURE_READ", "TPR"),
    ("UNKNOWN", "UNK"),
    ("UPDATE_THRESHOLDS", "UTH"),
    ("VCC_READ", "VCR"),
    ("VCOMP_READ", "VPR") ]

/-- The names of the command macros. -/
def commandNames : List String :=
  commandMacros.map Prod.fst

/-- The wire strings the command macros expand to. -/
def wireStrings : List String :=
  commandMacros.map Prod.snd

/-- The expansion of a command macro; `none` for a name the header does not
define as a command macro. -/
def wireOf (name : String) : Option String :=
  (commandMacros.find? (fun p => p.1 == name)).map Prod.snd

/-- The command macro that expands to a wire string; `none` for a string no
command macro expands to. -/
def commandOf (wire : String) : Option String :=
  (commandMacros.find? (fun p => p.2 == wire)).map Prod.fst

/-- The command vocabulary as the specification lists it (section 6, "Command
vocabulary"), in the order of the specification. This list follows the
specification's words, not the header. -/
def specVocabulary : List String :=
  [ "ECH", "DIS", "RST", "TOU", "SRV", "SYS", "END",
    "FBO", "FDV", "GBI",
    "CPT", "CRA", "CPR", "CPF", "MET",
    "TPR", "VCR", "OPR", "BMR", "LTR", "LAS", "VPR", "QFT", "MAL", "MEW",
    "MOL", "CTH", "UTH", "MVR", "DTR",
    "CLB", "CLF", "CLS", "CLV",
    "NCN",
    "ACK", "ERR", "UNK", "DRR" ]

/-- Whether a character is an ASCII letter. -/
def isAsciiLetter (c : Char) : Bool :=
  (65 ≤ c.toNat && c.toNat ≤ 90) || (97 ≤ c.toNat && c.toNat ≤ 122)

/-- Whether a wire string is made of three or four ASCII letters. -/
def isCommandCode (s : String) : Bool :=
  (s.length == 3 || s.length == 4) && s.toList.all isAsciiLetter

/-- The macros of the header that are not command strings, with their
replacement text: the include guard, `DEBUG` and `INVALID_SOCKET`. -/
def otherMacros : List (String × String) :=
  [ ("QUSIDE_QRNG_ADMIN_H", ""),
    ("DEBUG", "0"),
    ("INVALID_SOCKET", "-1") ]

/-- The names of all the macros the header defines, in the order of the
header. -/
def macroNames : List String :=
  otherMacros.map Prod.fst ++ commandNames

/-- The names of the constants of the three enumerations of the header, in the
order of the header. -/
def enumConstantNames : List String :=
  enumNames alarmType ++ enumNames monitorValue ++ enumNames calibrationStatus

/-- The identifiers the header defines both as an enumeration constant and as a
macro. -/
def doublyDefined : List String :=
  enumConstantNames.filter fun n => decide (n ∈ macroNames)

/-! ## The example program `QusideQRNGLibraryAdmin_ETH_Example.c` -/

/-- A call made by `main`, in program order. `printf_temperature` is
`printf("Temperature: %f\n", temp)` (the float is not modelled) and
`printf_random i word` is `printf("Random number %d: %u\n", i, randomNumbers[i])`
with `word` the value read from the buffer at index `i`. -/
inductive Call
  | connectToServer (serverIP : String)
  | puts (s : String)
  | malloc (bytes : Nat)
  | monitor_read_temperature (devInd : Nat)
  | printf_temperature
  | get_random (Nuint32 : Nat) (devInd : Int)
  | printf_random (i : Int) (word : Nat)
  | free
  | disconnectServer
deriving DecidableEq, Repr

/-- Whether a call is to a function declared by `quside_QRNG_admin.h` (the
others are calls to the C standard library). -/
def Call.isLibraryCall : Call → Bool
  | .connectToServer _ => true
  | .monitor_read_temperature _ => true
  | .get_random _ _ => true
  | .disconnectServer => true
  | _ => false

/-- What `main` gets from outside: the values the library functions return, the
contents of the capture buffer after `get_random` returned, and the value of
`devInd`, an identifier `main` passes to `monitor_read_temperature` without
declaring it. -/
structure World where
  connectResult : Int
  devInd : Nat
  temperatureResult : Int
  getRandomResult : Int
  randomNumbers : Nat → Nat

/-- The `const int devIndex = 0;` of `main`. -/
def devIndex : Int := 0

/-- The `const size_t numberOfRandomNumbers = 1024;` of `main`. -/
def numberOfRandomNumbers : Nat := 1024

/-- The value of `sizeof(uint32_t)`. -/
def sizeofUint32 : Nat := 4

/-- The conversion `(int)x` of an unsigned value to a 32-bit `int`. -/
def toInt32 (x : Nat) : Int :=
  if x % 2 ^ 32 < 2 ^ 31 then (x % 2 ^ 32 : Nat) else (x % 2 ^ 32 : Nat) - 2 ^ 32

/-- The bound of the print loop for a count `n`: `(int)(n >> 2)`. -/
def loopBound (n : Nat) : Int :=
  toInt32 (n >>> 2)

/-- The loop `for (int i = 0; i < bound; ++i) printf(..., i, randomNumbers[i]);`:
one `printf` for each `i` from 0 up to `bound - 1`, none when `bound ≤ 0`. -/
def printLoop (randomNumbers : Nat → Nat) (bound : Int) : List Call :=
  (List.range bound.toNat).map fun (i : Nat) => Call.printf_random (i : Int) (randomNumbers i)

/-- The body of `if (devIndex != -1) { ... } else { ... }` in `main`. -/
def captureBlock (w : World) : List Call :=
  if devIndex ≠ -1 then
    [Call.malloc (sizeofUint32 * numberOfRandomNumbers),
      Call.monitor_read_temperature w.devInd,
      Call.printf_temperature,
      Call.get_random numberOfRandomNumbers devIndex]
    ++ (if w.getRandomResult = -1 then [Call.puts "Some error occurs"] else [])
    ++ printLoop w.randomNumbers (loopBound numberOfRandomNumbers)
    ++ [Call.free]
  else
    [Call.puts "Some error occurs"]

/-- The function `main` of the example program: the calls it makes, in order,
and the value it returns. -/
def main (w : World) : List Call × Int :=
  if w.connectResult ≠ 0 then
    ([Call.connectToServer "xxx.xxx.xxx.xxx", Call.puts "Error connect."], -1)
  else
    ([Call.connectToServer "xxx.xxx.xxx.xxx", Call.puts "Connected"]
      ++ captureBlock w ++ [Call.disconnectServer], 0)

/-- The buffer reads of a run: the index and the word of each
`printf("Random number ...")`, in order. -/
def wordsRead (calls : List Call) : List (Int × Nat) :=
  calls.filterMap fun c =>
    match c with
    | .printf_random i word => some (i, word)
    | _ => none

/-- The counts requested from `get_random` in a run. -/
def countsRequested (calls : List Call) : List Nat :=
  calls.filterMap fun c =>
    match c with
    | .get_random n _ => some n
    | _ => none

/-- A world in which every library call succeeds and word `i` of the buffer
is `i`. -/
def successWorld : World :=
  { connectResult := 0, devInd := 0, temperatureResult := 0, getRandomResult := 0,
    randomNumbers := fun i => i }

/-- A world in which the connection succeeds and every later library call
fails. -/
def failingWorld : World :=
  { connectResult := 0, devInd := 0, temperatureResult := -1, getRandomResult := -1,
    randomNumbers := fun _ => 0 }

/-- A world in which `connectToServer` fails. -/
def unreachableWorld : World :=
  { connectResult := -1, devInd := 0, temperatureResult := -1, getRandomResult := -1,
    randomNumbers := fun _ => 0 }

/-- The sizes, in 32-bit words, of the buffers a run allocates: the bytes of
each `malloc` divided by `sizeof(uint32_t)`. -/
def allocatedWords (calls : List Call) : List Nat :=
  calls.filterMap fun c =>
    match c with
    | .malloc bytes => some (bytes / sizeofUint32)
    | _ => none

/-- The indices at which a run reads the buffer, in order. -/
def readIndices (calls : List Call) : List Int :=
  (wordsRead calls).map Prod.fst

/-! ## The library behind the header, as the specification describes it

The header declares the per-device functions; no source file defines them. The
definitions of this section follow sections 4.2, 4.3, 4.6, 4.7, 7 and 8 of the
specification. -/

/-- Modelled from the spec: the bodies of the library functions are missing; the
errors of section 7 that an operation of the library can fail with. -/
inductive LibError
  | DeviceUnknown
  | ServerError (code : Nat)
  | InvalidArgument
  | PartialData (wordsSoFar : Nat)
  | Timeout
  | ConnectionLost
  | MalformedReply
deriving DecidableEq, Repr

/-- Modelled from the spec: the request envelope of section 6 (the body of
`formJSON` and `formNetworkJSON` is missing), with the fields an operation
sets: command code, device index, numeric payload, string payload. -/
structure Request where
  cmd : String
  dev : Nat
  data : List Nat
  strings : List String
deriving DecidableEq, Repr

/-- Modelled from the spec: the reply envelope of section 6 (the decoder of the
library is missing): the `err` field and the payload. -/
structure Reply where
  err : Nat
  data : List Nat
deriving DecidableEq, Repr

/-- Modelled from the spec: the session state of sections 3 and 4.3 (the
library's state is missing): the device registry, that is the device IDs
found by the last discovery, empty when none was run, and the requests written
to the transport so far, whose number is the transport call counter. -/
structure Session where
  registry : List Nat
  sent : List Request
deriving DecidableEq, Repr

/-- Modelled from the spec: the session after `connect`, before any discovery
(the body of `connectToServer` is missing). -/
def Session.initial : Session :=
  { registry := [], sent := [] }

/-- Modelled from the spec: what the library is connected to and configured
with (section 4, missing from the sources): the answer of the transport and
server to a request, the largest number of words of one capture round trip, and
the syntax check of the four network fields. -/
structure Services where
  server : Request → Except LibError Reply
  chunk : Nat
  wellFormed : String → String → String → String → Bool

/-- Modelled from the spec: `deviceCount()` of section 4.3 (no source defines
it): the number of devices in the registry. -/
def deviceCount (s : Session) : Nat :=
  s.registry.length

/-- Modelled from the spec: `resolveIndex(deviceId)` of section 4.3, the missing
body of `find_device`: linear lookup in the registry. -/
def resolveIndex (s : Session) (deviceId : Nat) : Option Nat :=
  let i := s.registry.indexOf deviceId
  if i < s.registry.length then some i else none

/-- Modelled from the spec: `sendCommand` of section 4.2 (missing from the
sources): the request is written to the transport and the reply, or the
transport error, is returned. -/
def sendCommand (d : Services) (s : Session) (r : Request) :
    Except LibError Reply × Session :=
  (d.server r, { s with sent := s.sent ++ [r] })

/-- Modelled from the spec: one round trip of an operation (section 7, missing
from the sources): a reply with `err ≠ 0` is surfaced as a server error with
that code, otherwise the payload is the result. -/
def exchange (d : Services) (s : Session) (r : Request) :
    Except LibError (List Nat) × Session :=
  match sendCommand d s r with
  | (.error e, s') => (.error e, s')
  | (.ok reply, s') =>
    if reply.err ≠ 0 then (.error (.ServerError reply.err), s') else (.ok reply.data, s')

/-- Modelled from the spec: `discoverDevices()` of section 4.3, the missing body
of `find_boards`: issues FIND_BOARD and replaces the registry by the device IDs
of the reply. -/
def discoverDevices (d : Services) (s : Session) :
    Except LibError (List Nat) × Session :=
  match exchange d s { cmd := "FBO", dev := 0, data := [], strings := [] } with
  | (.error e, s') => (.error e, s')
  | (.ok ids, s') => (.ok ids, { s' with registry := ids })

/-- Modelled from the spec: the sizes of the round trips a capture of `count`
words is split into (section 4.6, missing from the sources). -/
def chunkSizes (count chunk : Nat) : List Nat :=
  if chunk = 0 then [count]
  else List.replicate (count / chunk) chunk ++ (if count % chunk = 0 then [] else [count % chunk])

/-- Modelled from the spec: the chunked capture of section 4.6 (missing from the
sources): one round trip for each chunk, the words concatenated in request
order; a failing chunk fails the call with the number of words retrieved so
far. -/
def captureChunks (d : Services) (cmd : String) (devInd : Nat) :
    List Nat → List Nat → Session → Except LibError (List Nat) × Session
  | [], acc, s => (.ok acc, s)
  | n :: rest, acc, s =>
    match exchange d s { cmd := cmd, dev := devInd, data := [n], strings := [] } with
    | (.error _, s') => (.error (.PartialData acc.length), s')
    | (.ok words, s') => captureChunks d cmd devInd rest (acc ++ words) s'

/-- Modelled from the spec: the per-device operations of the header, whose
bodies are missing, each with its arguments other than the device index. -/
inductive PerDeviceOp
  | get_random (Nuint32 : Nat)
  | get_raw (Nuint32 : Nat)
  | monitor_read_temperature
  | monitor_read_supply_voltage
  | monitor_read_optical_power
  | monitor_read_bias_monitor
  | quality_Qfactor
  | get_laser_temperatures
  | get_laser_status
  | get_Vcomp
  | get_hmin
  | get_calibration_status
  | check_thresholds
  | update_thresholds
  | get_monitor_value (alarm : Nat)
  | set_calibration
  | set_calibration_with_fixed_VTC
  | config_network (mac ip gateway netmask : String)
deriving DecidableEq, Repr

/-- Modelled from the spec: the command code of an operation (section 6; the
bodies that send them are missing), by the name of the header's macro. -/
def PerDeviceOp.command : PerDeviceOp → String
  | .get_random _ => "CPT"
  | .get_raw _ => "CRA"
  | .monitor_read_temperature => "TPR"
  | .monitor_read_supply_voltage => "VCR"
  | .monitor_read_optical_power => "OPR"
  | .monitor_read_bias_monitor => "BMR"
  | .quality_Qfactor => "QFT"
  | .get_laser_temperatures => "LTR"
  | .get_laser_status => "LAS"
  | .get_Vcomp => "VPR"
  | .get_hmin => "MET"
  | .get_calibration_status => "CLS"
  | .check_thresholds => "CTH"
  | .update_thresholds => "UTH"
  | .get_monitor_value _ => "MVR"
  | .set_calibration => "CLB"
  | .set_calibration_with_fixed_VTC => "CLV"
  | .config_network _ _ _ _ => "NCN"

/-- Modelled from the spec: a per-device operation (sections 4.3 to 4.7, 7 and
8; the bodies are missing from the sources). The device index is validated to
be below `deviceCount()` before anything else; an out-of-range index fails
locally with `DeviceUnknown`. `config_network` then checks its fields and fails
locally with `InvalidArgument` on malformed input. Captures are chunked; every
other operation is one round trip. -/
def perDevice (d : Services) (s : Session) (op : PerDeviceOp) (devInd : Nat) :
    Except LibError (List Nat) × Session :=
  if devInd < deviceCount s then
    match op with
    | .get_random n => captureChunks d op.command devInd (chunkSizes n d.chunk) [] s
    | .get_raw n => captureChunks d op.command devInd (chunkSizes n d.chunk) [] s
    | .get_monitor_value alarm =>
      exchange d s { cmd := op.command, dev := devInd, data := [alarm], strings := [] }
    | .config_network mac ip gateway netmask =>
      if d.wellFormed mac ip gateway netmask then
        exchange d s
          { cmd := op.command, dev := devInd, data := [], strings := [mac, ip, gateway, netmask] }
      else (.error .InvalidArgument, s)
    | _ => exchange d s { cmd := op.command, dev := devInd, data := [], strings := [] }
  else (.error .DeviceUnknown, s)

/-- Modelled from the spec: a mock server as in the end-to-end scenario of
section 8 (no source has one): discovery returns the device IDs 5 and 9, every
other request is answered with as many words as it asks for, counted from 0. -/
def mockServices : Services :=
  { server := fun r =>
      if r.cmd = "FBO" then .ok { err := 0, data := [5, 9] }
      else .ok { err := 0, data := List.range (r.data.headD 0) }
    chunk := 64
    wellFormed := fun mac ip gateway netmask =>
      !(mac.isEmpty || ip.isEmpty || gateway.isEmpty || netmask.isEmpty) }

end Quside

namespace Quside

/-! ## Lookup in an association list with distinct keys -/

theorem find_fst_map_snd_eq_some_iff {α β : Type} [DecidableEq α]
    (l : List (α × β)) (hl : (l.map Prod.fst).Nodup) (a : α) (b : β) :
    (l.find? (fun p => p.1 == a)).map Prod.snd = some b ↔ (a, b) ∈ l := by
  induction l with
  | nil => simp
  | cons p l ih =>
    obtain ⟨x, y⟩ := p
    rw [List.map_cons, List.nodup_cons] at hl
    by_cases hx : x = a
    · subst hx
      have hnot : (x, b) ∉ l := fun hm => hl.1 (List.mem_map.2 ⟨(x, b), hm, rfl⟩)
      simp [List.find?_cons, hnot, eq_comm]
    · have hne : (x == a) = false := by simpa using hx
      have hne2 : ¬ (a = x) := fun h => hx h.symm
      simp [List.find?_cons, hne, ih hl.2, hne2]

theorem find_snd_map_fst_eq_some_iff {α β : Type} [DecidableEq β]
    (l : List (α × β)) (hl : (l.map Prod.snd).Nodup) (a : α) (b : β) :
    (l.find? (fun p => p.2 == b)).map Prod.fst = some a ↔ (a, b) ∈ l := by
  induction l with
  | nil => simp
  | cons p l ih =>
    obtain ⟨x, y⟩ := p
    rw [List.map_cons, List.nodup_cons] at hl
    by_cases hy : y = b
    · subst hy
      have hnot : (a, y) ∉ l := fun hm => hl.1 (List.mem_map.2 ⟨(a, y), hm, rfl⟩)
      simp [List.find?_cons, hnot, eq_comm]
    · have hne : (y == b) = false := by simpa using hy
      have hne2 : ¬ (b = y) := fun h => hy h.symm
      simp [List.find?_cons, hne, ih hl.2, hne2]

theorem wireOf_eq_some_iff (n w : String) :
    wireOf n = some w ↔ (n, w) ∈ commandMacros :=
  find_fst_map_snd_eq_some_iff commandMacros (by decide) n w

theorem commandOf_eq_some_iff (n w : String) :
    commandOf w = some n ↔ (n, w) ∈ commandMacros :=
  find_snd_map_fst_eq_some_iff commandMacros (by decide) n w

/-! ## The enumerations of the header -/

/-- C2. The `monitorValue` enumeration has exactly five constants, with the codes
OK = 0, LOW_VALUE = -1, HIGH_VALUE = -2, OFF = -3, OUT_OF_SECURE_RANGE = -4; the
codes are pairwise distinct, an integer is the code of a constant exactly when
it is one of 0, -1, -2, -3, -4, and a code decodes to the one constant that has
it. -/
theorem monitorValue_codes :
    enumCodes monitorValue =
        [("OK", 0), ("LOW_VALUE", -1), ("HIGH_VALUE", -2), ("OFF", -3),
          ("OUT_OF_SECURE_RANGE", -4)] ∧
      (enumCodes monitorValue).length = 5 ∧
      ((enumCodes monitorValue).map Prod.snd).Nodup ∧
      (∀ c : Int, (∃ n, (n, c) ∈ enumCodes monitorValue) ↔ c ∈ [0, -1, -2, -3, -4]) ∧
      (∀ (n : String) (c : Int),
        decodeEnum monitorValue c = some n ↔ (n, c) ∈ enumCodes monitorValue) ∧
      (∀ c : Int, c ∉ [0, -1, -2, -3, -4] → decodeEnum monitorValue c = none) := by
  have hcodes : enumCodes monitorValue =
      [("OK", 0), ("LOW_VALUE", -1), ("HIGH_VALUE", -2), ("OFF", -3),
        ("OUT_OF_SECURE_RANGE", -4)] := by decide
  have hnodup : ((enumCodes monitorValue).map Prod.snd).Nodup := by decide
  have hdec : ∀ (n : String) (c : Int),
      decodeEnum monitorValue c = some n ↔ (n, c) ∈ enumCodes monitorValue :=
    fun n c => find_snd_map_fst_eq_some_iff (enumCodes monitorValue) hnodup n c
  have hmem : ∀ c : Int, (∃ n, (n, c) ∈ enumCodes monitorValue) ↔ c ∈ [0, -1, -2, -3, -4] := by
    intro c
    have hsnd : (enumCodes monitorValue).map Prod.snd = [0, -1, -2, -3, -4] := by decide
    rw [← hsnd, List.mem_map]
    constructor
    · rintro ⟨n, hn⟩
      exact ⟨(n, c), hn, rfl⟩
    · rintro ⟨p, hp, rfl⟩
      exact ⟨p.1, hp⟩
  refine ⟨hcodes, by decide, hnodup, hmem, hdec, ?_⟩
  intro c hc
  cases hd : decodeEnum monitorValue c with
  | none => rfl
  | some n => exact absurd ((hmem c).1 ⟨n, (hdec n c).1 hd⟩) hc

/-- C3. The `alarmType` enumeration consists of exactly nine constants, in the
order laser status, laser temperature, optical power, bias monitor,
temperature, VCC, voltage comparator, Q-factor, system-calibrated, with the
consecutive codes 0 to 8. -/
theorem alarmType_codes :
    enumCodes alarmType =
        [("LASER_STATUS", 0), ("LASER_TEMP", 1), ("OPTICAL_PW", 2), ("BIAS_MON", 3),
          ("TEMP", 4), ("VCC", 5), ("VCOMP", 6), ("QFACTOR", 7),
          ("SYSTEM_CALIBRATED", 8)] ∧
      (enumCodes alarmType).length = 9 ∧
      (enumCodes alarmType).map Prod.snd = (List.range 9).map Int.ofNat := by
  decide

/-- C4. Encoding an enumeration constant as its integer code and decoding the
code is lossless for the nine constants of `alarmType` (codes 0 to 8) and the
five constants of `calibrationStatus` (codes 0 to 4); the code mapping of each
enumeration is injective, and an integer outside the code range decodes to no
constant. -/
theorem enum_code_roundtrip :
    (∀ v ∈ enumNames alarmType,
        (encodeEnum alarmType v).bind (decodeEnum alarmType) = some v) ∧
      (∀ v ∈ enumNames calibrationStatus,
        (encodeEnum calibrationStatus v).bind (decodeEnum calibrationStatus) = some v) ∧
      (enumCodes alarmType).map Prod.snd = [0, 1, 2, 3, 4, 5, 6, 7, 8] ∧
      enumCodes calibrationStatus =
        [("DEFAULT", 0), ("CALIBRATING", 1), ("CALIB_SUCCED", 2), ("CALIB_FAIL", 3),
          ("I2C_ERROR", 4)] ∧
      (∀ v ∈ enumNames alarmType, ∀ w ∈ enumNames alarmType,
        encodeEnum alarmType v = encodeEnum alarmType w → v = w) ∧
      (∀ v ∈ enumNames calibrationStatus, ∀ w ∈ enumNames calibrationStatus,
        encodeEnum calibrationStatus v = encodeEnum calibrationStatus w → v = w) ∧
      (∀ c : Int, c < 0 ∨ 8 < c → decodeEnum alarmType c = none) ∧
      (∀ c : Int, c < 0 ∨ 4 < c → decodeEnum calibrationStatus c = none) := by
  have hA : (enumCodes alarmType).map Prod.snd = [0, 1, 2, 3, 4, 5, 6, 7, 8] := by decide
  have hC : (enumCodes calibrationStatus).map Prod.snd = [0, 1, 2, 3, 4] := by decide
  refine ⟨by decide, by decide, hA, by decide, by decide, by decide, ?_, ?_⟩
  · intro c hc
    cases hd : decodeEnum alarmType c with
    | none => rfl
    | some n =>
      have hm : (n, c) ∈ enumCodes alarmType :=
        (find_snd_map_fst_eq_some_iff (enumCodes alarmType) (by decide) n c).1 hd
      have hc2 : c ∈ (enumCodes alarmType).map Prod.snd := List.mem_map.2 ⟨(n, c), hm, rfl⟩
      rw [hA] at hc2
      simp at hc2
      omega
  · intro c hc
    cases hd : decodeEnum calibrationStatus c with
    | none => rfl
    | some n =>
      have hm : (n, c) ∈ enumCodes calibrationStatus :=
        (find_snd_map_fst_eq_some_iff (enumCodes calibrationStatus) (by decide) n c).1 hd
      have hc2 : c ∈ (enumCodes calibrationStatus).map Prod.snd :=
        List.mem_map.2 ⟨(n, c), hm, rfl⟩
      rw [hC] at hc2
      simp at hc2
      omega

/-! ## The command vocabulary -/

/-- C1, as stated, fails: the header defines the wire string "ASKB" (macro
`ASK_BABYLON`), which the vocabulary of the specification does not list, so the
two sets are not equal. -/
theorem header_vocabulary_ne_spec :
    ("ASKB" ∈ wireStrings ∧ "ASKB" ∉ specVocabulary) ∧
      ¬ (∀ s : String, s ∈ wireStrings ↔ s ∈ specVocabulary) := by
  have h : "ASKB" ∈ wireStrings ∧ "ASKB" ∉ specVocabulary := by decide
  exact ⟨h, fun hall => h.2 ((hall "ASKB").1 h.1)⟩

/-- C1, amended. Every code of the specification's vocabulary is defined by the
header, and the header defines exactly those 39 codes and four more: ASKB, IDV,
LED and NML (43 wire strings in all). -/
theorem header_vocabulary :
    (∀ s : String, s ∈ wireStrings ↔ s ∈ specVocabulary ∨ s ∈ ["ASKB", "IDV", "LED", "NML"]) ∧
      (∀ s ∈ specVocabulary, s ∈ wireStrings) ∧
      (∀ s ∈ ["ASKB", "IDV", "LED", "NML"], s ∈ wireStrings ∧ s ∉ specVocabulary) ∧
      specVocabulary.length = 39 ∧ specVocabulary.Nodup ∧
      wireStrings.length = 43 ∧ wireStrings.Nodup := by
  have h1 : ∀ s ∈ wireStrings, s ∈ specVocabulary ++ ["ASKB", "IDV", "LED", "NML"] := by decide
  have h2 : ∀ s ∈ specVocabulary ++ ["ASKB", "IDV", "LED", "NML"], s ∈ wireStrings := by decide
  refine ⟨fun s => ⟨fun hs => List.mem_append.1 (h1 s hs), fun hs => h2 s (List.mem_append.2 hs)⟩,
    by decide, by decide, by decide, by decide, by decide, by decide⟩

/-- C5, as stated, fails: the command macro `ASK_BABYLON` expands to "ASKB",
which is not a code of the specification's vocabulary, so the mapping from the
43 command names does not go into that vocabulary of 39 codes, and is no
bijection onto it. -/
theorem command_wire_not_onto_spec :
    (wireOf "ASK_BABYLON" = some "ASKB" ∧ "ASKB" ∉ specVocabulary) ∧
      (commandNames.length = 43 ∧ specVocabulary.length = 39) ∧
      ¬ (∀ n ∈ commandNames, ∃ w ∈ specVocabulary, wireOf n = some w) := by
  have h : wireOf "ASK_BABYLON" = some "ASKB" ∧ "ASKB" ∉ specVocabulary := by decide
  refine ⟨h, by decide, ?_⟩
  intro hall
  obtain ⟨w, hw, e⟩ := hall "ASK_BABYLON" (by decide)
  rw [h.1] at e
  rw [← Option.some.inj e] at hw
  exact h.2 hw

/-- C5, amended. The mapping from the command macros to their wire strings is
injective and is a bijection onto the 43 wire strings the header defines: a
macro expands to a wire string exactly when that wire string is the one of this
macro, and every wire string of the header identifies exactly one command
macro. Onto the vocabulary of the specification it is a bijection from the 39
macros other than `ASK_BABYLON`, `INIT_DEVICE`, `LED` and `NUM_LASERS`: every
code of that vocabulary identifies exactly one command macro, and a macro
expands to a code of that vocabulary exactly when it is not one of these
four. -/
theorem command_wire_bijection :
    (∀ n w : String, wireOf n = some w ↔ commandOf w = some n) ∧
      (∀ n₁ n₂ w : String, wireOf n₁ = some w → wireOf n₂ = some w → n₁ = n₂) ∧
      (∀ n ∈ commandNames, ∃ w ∈ wireStrings, wireOf n = some w) ∧
      (∀ w ∈ wireStrings, ∃! n, n ∈ commandNames ∧ wireOf n = some w) ∧
      commandNames.Nodup ∧ wireStrings.Nodup ∧
      (∀ w ∈ specVocabulary, ∃! n, n ∈ commandNames ∧ wireOf n = some w) ∧
      (∀ n ∈ commandNames,
        (∃ w ∈ specVocabulary, wireOf n = some w) ↔
          n ∉ ["ASK_BABYLON", "INIT_DEVICE", "LED", "NUM_LASERS"]) ∧
      commandNames.length = 43 ∧ specVocabulary.length = 39 := by
  have hiff : ∀ n w : String, wireOf n = some w ↔ commandOf w = some n := fun n w =>
    (wireOf_eq_some_iff n w).trans (commandOf_eq_some_iff n w).symm
  have hinj : ∀ n₁ n₂ w : String, wireOf n₁ = some w → wireOf n₂ = some w → n₁ = n₂ := by
    intro n₁ n₂ w h₁ h₂
    have e₁ := (hiff n₁ w).1 h₁
    have e₂ := (hiff n₂ w).1 h₂
    rw [e₁] at e₂
    exact Option.some.inj e₂
  have huniq : ∀ w ∈ wireStrings, ∃! n, n ∈ commandNames ∧ wireOf n = some w := by
    intro w hw
    obtain ⟨p, hp, rfl⟩ := List.mem_map.1 hw
    exact ⟨p.1, ⟨List.mem_map.2 ⟨p, hp, rfl⟩, (wireOf_eq_some_iff p.1 p.2).2 hp⟩,
      fun m hm => hinj m p.1 p.2 hm.2 ((wireOf_eq_some_iff p.1 p.2).2 hp)⟩
  have hsub : ∀ w ∈ specVocabulary, w ∈ wireStrings := by decide
  refine ⟨hiff, hinj, ?_, huniq, by decide, by decide, fun w hw => huniq w (hsub w hw),
    by decide, by decide, by decide⟩
  intro n hn
  obtain ⟨p, hp, rfl⟩ := List.mem_map.1 hn
  exact ⟨p.2, List.mem_map.2 ⟨p, hp, rfl⟩, (wireOf_eq_some_iff p.1 p.2).2 hp⟩

/-- C6. Every command wire string defined by the header consists only of ASCII
letters and has length 3 or 4. -/
theorem wire_string_shape (s : String) (hs : s ∈ wireStrings) :
    (s.length = 3 ∨ s.length = 4) ∧ ∀ c ∈ s.toList, isAsciiLetter c = true := by
  have hall : ∀ t ∈ wireStrings, isCommandCode t = true := by decide
  have h := hall s hs
  simp only [isCommandCode, Bool.and_eq_true, Bool.or_eq_true, beq_iff_eq,
    List.all_eq_true] at h
  exact h

/-- C6 at the four-letter code "ASKB". -/
theorem wire_string_shape_witness :
    "ASKB" ∈ wireStrings ∧
      (("ASKB".length = 3 ∨ "ASKB".length = 4) ∧ ∀ c ∈ "ASKB".toList, isAsciiLetter c = true) :=
  ⟨by decide, wire_string_shape "ASKB" (by decide)⟩

/-! ## The example program -/

theorem count_disconnect_printLoop (f : Nat → Nat) (b : Int) :
    (printLoop f b).count Call.disconnectServer = 0 := by
  rw [List.count_eq_zero]
  intro h
  obtain ⟨i, _, hi⟩ := List.mem_map.1 h
  exact Call.noConfusion hi

theorem count_disconnect_captureBlock (w : World) :
    (captureBlock w).count Call.disconnectServer = 0 := by
  unfold captureBlock
  split
  · rw [List.count_append, List.count_append, List.count_append, count_disconnect_printLoop]
    split <;> simp [List.count_cons]
  · simp [List.count_cons]

theorem wordsRead_printLoop (f : Nat → Nat) (b : Int) :
    wordsRead (printLoop f b) = (List.range b.toNat).map fun (i : Nat) => ((i : Int), f i) := by
  unfold wordsRead printLoop
  rw [List.filterMap_map]
  rw [← List.filterMap_eq_map]
  rfl

theorem wordsRead_main (w : World) (h : w.connectResult = 0) :
    wordsRead (main w).1 =
      (List.range (loopBound numberOfRandomNumbers).toNat).map
        fun (i : Nat) => ((i : Int), w.randomNumbers i) := by
  have hd : devIndex ≠ -1 := by decide
  unfold main captureBlock
  rw [if_neg (not_not.2 h), if_pos hd]
  have happ : ∀ a b : List Call, wordsRead (a ++ b) = wordsRead a ++ wordsRead b :=
    fun a b => List.filterMap_append _ _ _
  simp only [happ, wordsRead_printLoop]
  split <;> simp [wordsRead]

/-- C7. When `connectToServer` returned 0, `main` calls `disconnectServer`
exactly once, as its last call, and returns 0, whatever the other library
functions return; when `connectToServer` failed, `main` returns -1 and its only
call to the library is that `connectToServer`. -/
theorem main_disconnects_once (w : World) :
    (w.connectResult = 0 →
        (main w).1.count Call.disconnectServer = 1 ∧
          (main w).1.getLast? = some Call.disconnectServer ∧
          (main w).2 = 0) ∧
      (w.connectResult ≠ 0 →
        (main w).2 = -1 ∧
          (main w).1 = [Call.connectToServer "xxx.xxx.xxx.xxx", Call.puts "Error connect."] ∧
          ∀ c ∈ (main w).1, c.isLibraryCall = true →
            c = Call.connectToServer "xxx.xxx.xxx.xxx") := by
  constructor
  · intro h
    unfold main
    rw [if_neg (not_not.2 h)]
    refine ⟨?_, ?_, rfl⟩
    · rw [List.count_append, List.count_append, count_disconnect_captureBlock]
      simp [List.count_cons]
    · exact List.getLast?_concat _
  · intro h
    unfold main
    rw [if_pos h]
    refine ⟨rfl, rfl, ?_⟩
    intro c hc hlib
    simp only [List.mem_cons, List.mem_singleton, List.not_mem_nil, or_false] at hc
    rcases hc with rfl | rfl
    · rfl
    · simp [Call.isLibraryCall] at hlib

/-- C7 in a world where the connection succeeds and `get_random` returns -1, and
in a world where the connection fails. -/
theorem main_disconnects_once_witness :
    (failingWorld.connectResult = 0 ∧ failingWorld.getRandomResult = -1 ∧
        (main failingWorld).1.count Call.disconnectServer = 1 ∧
        (main failingWorld).1.getLast? = some Call.disconnectServer ∧
        (main failingWorld).2 = 0) ∧
      (unreachableWorld.connectResult ≠ 0 ∧
        (main unreachableWorld).2 = -1 ∧
        (main unreachableWorld).1 =
          [Call.connectToServer "xxx.xxx.xxx.xxx", Call.puts "Error connect."] ∧
        ∀ c ∈ (main unreachableWorld).1, c.isLibraryCall = true →
          c = Call.connectToServer "xxx.xxx.xxx.xxx") :=
  ⟨⟨rfl, rfl, (main_disconnects_once failingWorld).1 rfl⟩,
    ⟨by decide, (main_disconnects_once unreachableWorld).2 (by decide)⟩⟩

/-- C10, as stated, fails: in a run where every library call succeeds, `main`
requests 1024 from `get_random` and reads 256 words back from the buffer, not
1024. -/
theorem words_read_ne_count_requested :
    countsRequested (main successWorld).1 = [1024] ∧
      (wordsRead (main successWorld).1).length = 256 ∧
      (wordsRead (main successWorld).1).length ≠ numberOfRandomNumbers := by
  have hlen : (wordsRead (main successWorld).1).length = 256 := by
    rw [wordsRead_main successWorld rfl, List.length_map, List.length_range]
    decide
  refine ⟨?_, hlen, ?_⟩
  · have hd : devIndex ≠ -1 := by decide
    simp [main, captureBlock, successWorld, hd, countsRequested, printLoop,
      List.filterMap_append, List.filterMap_map, numberOfRandomNumbers]
  · rw [hlen]
    decide

/-- C10, amended. After a successful connection `main` requests
`numberOfRandomNumbers` (1024) from `get_random` once and reads back
`numberOfRandomNumbers >> 2` (256) words from the capture buffer, a quarter of
the count requested: the words at the indices 0 to 255, in order. -/
theorem words_read_quarter_of_count (w : World) (h : w.connectResult = 0) :
    countsRequested (main w).1 = [numberOfRandomNumbers] ∧
      numberOfRandomNumbers = 1024 ∧
      (wordsRead (main w).1).length = numberOfRandomNumbers >>> 2 ∧
      (wordsRead (main w).1).length = 256 ∧
      wordsRead (main w).1 =
        (List.range 256).map fun (i : Nat) => ((i : Int), w.randomNumbers i) := by
  have hb : (loopBound numberOfRandomNumbers).toNat = 256 := by decide
  have hw := wordsRead_main w h
  rw [hb] at hw
  have hlen : (wordsRead (main w).1).length = 256 := by
    rw [hw, List.length_map, List.length_range]
  refine ⟨?_, rfl, ?_, hlen, hw⟩
  · have hd : devIndex ≠ -1 := by decide
    have hc : ¬ (w.connectResult ≠ 0) := not_not.2 h
    unfold main captureBlock
    rw [if_neg hc, if_pos hd]
    have happ : ∀ a b : List Call,
        countsRequested (a ++ b) = countsRequested a ++ countsRequested b :=
      fun a b => List.filterMap_append _ _ _
    have hloop : ∀ (f : Nat → Nat) (b : Int), countsRequested (printLoop f b) = [] := by
      intro f b
      unfold countsRequested printLoop
      rw [List.filterMap_map, List.filterMap_eq_nil_iff]
      intro i _
      rfl
    simp only [happ, hloop]
    split <;> simp [countsRequested]
  · rw [hlen]
    decide

/-- C10, amended, in a run where every library call succeeds. -/
theorem words_read_quarter_of_count_witness :
    successWorld.connectResult = 0 ∧
      (wordsRead (main successWorld).1).length = numberOfRandomNumbers >>> 2 :=
  ⟨rfl, (words_read_quarter_of_count successWorld rfl).2.2.1⟩

/-! ## Device index validation -/

/-- An in-range index does reach the transport: a temperature read on a known
device writes exactly one request, the TPR request for that device. -/
theorem in_range_index_sends (d : Services) (s : Session) (i : Nat) (h : i < deviceCount s) :
    (perDevice d s .monitor_read_temperature i).2.sent =
      s.sent ++ [{ cmd := "TPR", dev := i, data := [], strings := [] }] := by
  unfold perDevice
  rw [if_pos h]
  simp only [exchange, sendCommand, PerDeviceOp.command]
  cases d.server { cmd := "TPR", dev := i, data := [], strings := [] } with
  | error e => rfl
  | ok reply =>
    dsimp only
    split <;> rfl

/-- C9. For every device index `i ≥ deviceCount()`, every per-device operation
fails with the device-unknown error and sends no request: the requests written
to the transport, and the whole session, are as before the call. -/
theorem out_of_range_index_rejected (d : Services) (s : Session) (op : PerDeviceOp) (i : Nat)
    (h : deviceCount s ≤ i) :
    (perDevice d s op i).1 = .error .DeviceUnknown ∧
      (perDevice d s op i).2.sent = s.sent ∧
      (perDevice d s op i).2 = s := by
  unfold perDevice
  rw [if_neg (Nat.not_lt.2 h)]
  exact ⟨rfl, rfl, rfl⟩

/-- C9 with no discovery run (the device count is 0) at index 0, and after a
discovery that found the devices 5 and 9 at index 2. -/
theorem out_of_range_index_rejected_witness :
    (deviceCount Session.initial = 0 ∧
        (perDevice mockServices Session.initial (.get_random 1024) 0).1 =
          .error .DeviceUnknown ∧
        (perDevice mockServices Session.initial (.get_random 1024) 0).2.sent = []) ∧
      (deviceCount (discoverDevices mockServices Session.initial).2 = 2 ∧
        (perDevice mockServices (discoverDevices mockServices Session.initial).2
          (.config_network "" "" "" "") 2).1 = .error .DeviceUnknown) :=
  ⟨⟨rfl,
      (out_of_range_index_rejected mockServices Session.initial (.get_random 1024) 0
        (by decide)).1,
      (out_of_range_index_rejected mockServices Session.initial (.get_random 1024) 0
        (by decide)).2.1⟩,
    ⟨by decide,
      (out_of_range_index_rejected mockServices
        (discoverDevices mockServices Session.initial).2 (.config_network "" "" "" "") 2
        (by decide)).1⟩⟩

/-! ## Identifiers defined twice -/

/-- C11. `QFACTOR` is both a constant of `alarmType`, with code 7, and a command
macro, with wire string "QFT", and it is the only constant of `alarmType`,
`monitorValue` or `calibrationStatus` whose name is also the name of a macro of
the header. -/
theorem qfactor_only_double_definition :
    encodeEnum alarmType "QFACTOR" = some 7 ∧
      wireOf "QFACTOR" = some "QFT" ∧
      doublyDefined = ["QFACTOR"] ∧
      (∀ n : String, n ∈ enumConstantNames ∧ n ∈ macroNames ↔ n = "QFACTOR") ∧
      (∀ n ∈ enumNames monitorValue ++ enumNames calibrationStatus, n ∉ macroNames) := by
  have hd : doublyDefined = ["QFACTOR"] := by decide
  refine ⟨by decide, by decide, hd, ?_, by decide⟩
  intro n
  have hmem : n ∈ doublyDefined ↔ n ∈ enumConstantNames ∧ n ∈ macroNames := by
    unfold doublyDefined
    rw [List.mem_filter, decide_eq_true_iff]
  rw [← hmem, hd, List.mem_singleton]

/-! ## Bounds of the buffer reads -/

theorem loopBound_eq (N : Nat) (hN : N < 2 ^ 31) : loopBound N = ((N >>> 2 : Nat) : Int) := by
  have hdiv : N >>> 2 = N / 4 := by
    rw [Nat.shiftRight_eq_div_pow]
  have hlt : N / 4 < 2 ^ 31 := by omega
  have hmod : N / 4 % 2 ^ 32 = N / 4 := Nat.mod_eq_of_lt (by omega)
  unfold loopBound toInt32
  rw [hdiv, hmod, if_pos hlt]

theorem allocatedWords_main (w : World) (h : w.connectResult = 0) :
    allocatedWords (main w).1 = [numberOfRandomNumbers] := by
  have hd : devIndex ≠ -1 := by decide
  have hc : ¬ (w.connectResult ≠ 0) := not_not.2 h
  unfold main captureBlock
  rw [if_neg hc, if_pos hd]
  have happ : ∀ a b : List Call,
      allocatedWords (a ++ b) = allocatedWords a ++ allocatedWords b :=
    fun a b => List.filterMap_append _ _ _
  have hloop : ∀ (f : Nat → Nat) (b : Int), allocatedWords (printLoop f b) = [] := by
    intro f b
    unfold allocatedWords printLoop
    rw [List.filterMap_map, List.filterMap_eq_nil_iff]
    intro i _
    rfl
  simp only [happ, hloop]
  split <;> simp [allocatedWords, sizeofUint32, numberOfRandomNumbers]

/-- C12. For a count `N < 2^31` the bound of the print loop is `N >> 2`, which
is at most `N`, and every index `i` the loop reads satisfies
`0 ≤ i < (N >> 2) ≤ N`, so it lies inside a buffer of
`sizeof(uint32_t) * N` bytes, that is `N` words; the program allocates 1024
words and, after a successful connection, reads exactly the indices 0 to 255,
each below 1024. -/
theorem print_loop_reads_in_bounds (N : Nat) (hN : N < 2 ^ 31) (w : World) :
    (loopBound N = ((N >>> 2 : Nat) : Int) ∧ N >>> 2 ≤ N ∧
        sizeofUint32 * N / sizeofUint32 = N ∧
        (readIndices (printLoop w.randomNumbers (loopBound N))).length = N >>> 2 ∧
        ∀ i ∈ readIndices (printLoop w.randomNumbers (loopBound N)),
          0 ≤ i ∧ i < ((N >>> 2 : Nat) : Int) ∧ i < (N : Int)) ∧
      (w.connectResult = 0 →
        allocatedWords (main w).1 = [1024] ∧
          readIndices (main w).1 = (List.range 256).map Int.ofNat ∧
          ∀ i ∈ readIndices (main w).1, 0 ≤ i ∧ i < 1024) := by
  have hb := loopBound_eq N hN
  have hle : N >>> 2 ≤ N := by
    rw [Nat.shiftRight_eq_div_pow]
    exact Nat.div_le_self N (2 ^ 2)
  have hidx : readIndices (printLoop w.randomNumbers (loopBound N)) =
      (List.range (N >>> 2)).map Int.ofNat := by
    unfold readIndices
    rw [wordsRead_printLoop, hb, Int.toNat_ofNat, List.map_map]
    rfl
  refine ⟨⟨hb, hle, Nat.mul_div_cancel_left N (by decide), ?_, ?_⟩, ?_⟩
  · rw [hidx, List.length_map, List.length_range]
  · intro i hi
    rw [hidx] at hi
    obtain ⟨k, hk, rfl⟩ := List.mem_map.1 hi
    have hk2 : k < N >>> 2 := List.mem_range.1 hk
    have h1 : (0 : Int) ≤ Int.ofNat k := Int.ofNat_nonneg k
    have h2 : Int.ofNat k < ((N >>> 2 : Nat) : Int) := Int.ofNat_lt.2 hk2
    have h3 : ((N >>> 2 : Nat) : Int) ≤ (N : Int) := Int.ofNat_le.2 hle
    exact ⟨h1, h2, lt_of_lt_of_le h2 h3⟩
  · intro h
    have hread : readIndices (main w).1 = (List.range 256).map Int.ofNat := by
      unfold readIndices
      rw [wordsRead_main w h]
      have hb2 : (loopBound numberOfRandomNumbers).toNat = 256 := by decide
      rw [hb2, List.map_map]
      rfl
    refine ⟨allocatedWords_main w h, hread, ?_⟩
    intro i hi
    rw [hread] at hi
    obtain ⟨k, hk, rfl⟩ := List.mem_map.1 hi
    have hk2 : k < 256 := List.mem_range.1 hk
    have h1 : (0 : Int) ≤ Int.ofNat k := Int.ofNat_nonneg k
    have h2 : Int.ofNat k < Int.ofNat 256 := Int.ofNat_lt.2 hk2
    exact ⟨h1, lt_trans h2 (by decide)⟩

/-- C12 for the count of the program, 1024, in a run where every library call
succeeds. -/
theorem print_loop_reads_in_bounds_witness :
    (1024 < 2 ^ 31 ∧ successWorld.connectResult = 0) ∧
      (∀ i ∈ readIndices (printLoop successWorld.randomNumbers (loopBound 1024)),
        0 ≤ i ∧ i < ((1024 >>> 2 : Nat) : Int) ∧ i < ((1024 : Nat) : Int)) ∧
      (allocatedWords (main successWorld).1 = [1024] ∧
        readIndices (main successWorld).1 = (List.range 256).map Int.ofNat ∧
        ∀ i ∈ readIndices (main successWorld).1, 0 ≤ i ∧ i < 1024) :=
  ⟨⟨by decide, rfl⟩,
    (print_loop_reads_in_bounds 1024 (by decide) successWorld).1.2.2.2.2,
    (print_loop_reads_in_bounds 1024 (by decide) successWorld).2 rfl⟩

end Quside
